import Mathlib

/- Verification of athena_mcp_server.py: a shallow embedding of the query
orchestrator `_execute_query_internal`, the lazily initialized boto3 client
global, and the three tool wrappers, together with theorems about the
formatting, polling, and error-handling behaviour of the module. -/

namespace AthenaMCP

/-- Module constant DATABASE_NAME. -/
def DATABASE_NAME : String := "drm_text2sql_db"

/-- Module constant OUTPUT_LOCATION. -/
def OUTPUT_LOCATION : String := "s3://glab-drm-query-results/"

/-- One result cell of a get_query_results response: a dict that may or may
not carry the key VarCharValue.  A missing key is `none`. -/
structure Cell where
  varCharValue : Option String
deriving DecidableEq

/-- One result row: the dict with key Data holding the list of cells. -/
structure Row where
  data : List Cell
deriving DecidableEq

/-- The ResultSet.Rows list of a get_query_results response. -/
structure ResultSet where
  rows : List Row
deriving DecidableEq

/-- One get_query_execution response, projected to the fields the code reads:
QueryExecution.Status.State and the optional
QueryExecution.Status.StateChangeReason. -/
structure QueryStatus where
  state : String
  stateChangeReason : Option String
deriving DecidableEq

/-- The remote Athena service as seen through the boto3 client: the three
calls the orchestrator makes.  A raised exception is modelled as
`Except.error` carrying str(e).  `startQueryExecution` receives the query
string, the database name and the output location; `getQueryExecution`
receives the execution id and the index of the poll (the remote state may
change between successive polls); `getQueryResults` receives the execution
id. -/
structure AthenaClient where
  startQueryExecution : String → String → String → Except String String
  getQueryExecution : String → Nat → Except String QueryStatus
  getQueryResults : String → Except String ResultSet

/-- Python str.join: sep.join(values). -/
def pyJoin (sep : String) : List String → String
  | [] => ""
  | [x] => x
  | x :: y :: rest => x ++ sep ++ pyJoin sep (y :: rest)

/-- The terminal-state test of the poll loop:
status in [SUCCEEDED, FAILED, CANCELLED]. -/
def isTerminalState (s : String) : Bool :=
  s == "SUCCEEDED" || s == "FAILED" || s == "CANCELLED"

/-- The data-row cell access col.get(VarCharValue, NULL): a missing value
falls back to the literal text NULL. -/
def cellValue (c : Cell) : String :=
  c.varCharValue.getD "NULL"

/-- The header comprehension [col[VarCharValue] for col in rows[0][Data]]:
the lookup is strict, so a missing key raises KeyError, modelled as
`Except.error`. -/
def extractHeaders : List Cell → Except String (List String)
  | [] => Except.ok []
  | c :: cs =>
    match c.varCharValue with
    | none => Except.error "KeyError: VarCharValue"
    | some v => Except.map (fun vs => v :: vs) (extractHeaders cs)

/-- One rendered data row: pipe-joined cell values plus the trailing
newline appended by the loop body. -/
def formatRow (r : Row) : String :=
  pyJoin " | " (r.data.map cellValue) ++ "\n"

/-- The accumulation loop `for row in rows[1:11]` over a list of rows. -/
def renderRows : List Row → String
  | [] => ""
  | r :: rs => formatRow r ++ renderRows rs

/-- The response text built before the data rows: success banner, column
list, and the data-row count len(rows)-1. -/
def successHeader (headers : List String) (numDataRows : Nat) : String :=
  "Query executed successfully!\n\n" ++
  "Columns: " ++ pyJoin ", " headers ++ "\n\n" ++
  "Results (" ++ toString numDataRows ++ " rows):\n"

/-- The SUCCEEDED branch of `_execute_query_internal` after
get_query_results: empty row list short-circuits; otherwise row 0 is the
header (strict lookups), rows[1:11] are rendered (`dataRows.take 10`), and
the truncation suffix is appended when len(rows) > 11, i.e. when there are
more than 10 data rows, mentioning len(rows)-11 = dataRows.length - 10
omitted rows. -/
def formatResults (rows : List Row) : Except String String :=
  match rows with
  | [] => Except.ok "Query executed successfully but returned no results."
  | header :: dataRows =>
    Except.map
      (fun headers =>
        let text := successHeader headers dataRows.length ++
          renderRows (dataRows.take 10)
        if dataRows.length > 10 then
          text ++ "\n... and " ++ toString (dataRows.length - 10) ++ " more rows"
        else text)
      (extractHeaders header.data)

/-- The local max_attempts = 30. -/
def maxAttempts : Nat := 30

/-- The while loop of `_execute_query_internal`: fuel counts the remaining
loop iterations (initially max_attempts), the first argument is the current
value of `attempt`.  The loop returns the last observed query status (a
terminal one if the break fired, otherwise the status of the final poll),
or the first fault raised by a poll.  On the final iteration the loop
keeps the observed status whether or not it is terminal (break and normal
exit coincide), so that case is the bare poll.  The fuel-0 case corresponds
to the loop body never running, where Python would raise an unbound-local
error on reading `status`; it is unreachable for max_attempts = 30. -/
def pollLoop (poll : Nat → Except String QueryStatus) :
    Nat → Nat → Except String QueryStatus
  | _, 0 => Except.error "UnboundLocalError: status"
  | attempt, 1 => poll attempt
  | attempt, r + 2 =>
    match poll attempt with
    | Except.error e => Except.error e
    | Except.ok st =>
      if isTerminalState st.state then Except.ok st
      else pollLoop poll (attempt + 1) (r + 1)

/-- traceback.format_exc(): runtime-dependent diagnostic text that ends with
the exception message; modelled as a function of that message. -/
def formatExc (e : String) : String :=
  "Traceback (most recent call last):\n" ++ e ++ "\n"

/-- The except branch: f-string Error: str(e), newline, the trace. -/
def errorText (e : String) : String :=
  "Error: " ++ e ++ "\n" ++ formatExc e

/-- The try block of `_execute_query_internal` as an Except pipeline:
submit, poll up to max_attempts times, then branch on the final status
exactly as the if/elif chain does. -/
def runQuery (client : AthenaClient) (query : String)
    (outputLocation : String) : Except String String := do
  let qid ← client.startQueryExecution query DATABASE_NAME outputLocation
  let st ← pollLoop (client.getQueryExecution qid) 0 maxAttempts
  if st.state == "SUCCEEDED" then do
    let results ← client.getQueryResults qid
    formatResults results.rows
  else if st.state == "FAILED" then
    pure ("Query failed: " ++ st.stateChangeReason.getD "Unknown error")
  else if st.state == "CANCELLED" then
    pure "Query was cancelled."
  else
    pure ("Query timed out after " ++ toString maxAttempts ++
      " seconds. Status: " ++ st.state)

/-- `_execute_query_internal`: the try/except wrapper, which converts any
raised fault into the Error text and otherwise returns the branch result.
It always returns a string; nothing escapes it. -/
def _execute_query_internal (client : AthenaClient) (query : String)
    (outputLocation : String := OUTPUT_LOCATION) : String :=
  match runQuery client query outputLocation with
  | Except.ok s => s
  | Except.error e => errorText e

/-- Tool execute_athena_query: delegates directly. -/
def execute_athena_query (client : AthenaClient) (query : String)
    (outputLocation : String := OUTPUT_LOCATION) : String :=
  _execute_query_internal client query outputLocation

/-- Tool list_tables.  Its own try/except can never fire: the query build is
a total string append and `_execute_query_internal` returns normally. -/
def list_tables (client : AthenaClient) : String :=
  _execute_query_internal client ("SHOW TABLES IN " ++ DATABASE_NAME)

/-- Tool describe_table: interpolates the caller-supplied table name. -/
def describe_table (client : AthenaClient) (table_name : String) : String :=
  _execute_query_internal client ("DESCRIBE " ++ DATABASE_NAME ++ "." ++ table_name)

/-- Tool get_table_sample: interpolates table name and limit; the limit
argument defaults to 10. -/
def get_table_sample (client : AthenaClient) (table_name : String)
    (limit : Int := 10) : String :=
  _execute_query_internal client
    ("SELECT * FROM " ++ DATABASE_NAME ++ "." ++ table_name ++
      " LIMIT " ++ toString limit)

/-- A boto3 client value as created by boto3.client with service name and
region. -/
structure Boto3Client where
  service : String
  region_name : String
deriving DecidableEq

/-- boto3.client(service, region_name). -/
def boto3_client (service region : String) : Boto3Client :=
  { service := service, region_name := region }

/-- get_athena_client acting on the module global _athena_client (initially
None): returns the client together with the new value of the global. -/
def get_athena_client : Option Boto3Client → Boto3Client × Option Boto3Client
  | some c => (c, some c)
  | none =>
    let c := boto3_client "athena" "eu-west-1"
    (c, some c)

/-- The result and global state after n+1 further calls to
get_athena_client starting from global state s. -/
def nthClientCall : Nat → Option Boto3Client → Boto3Client × Option Boto3Client
  | 0, s => get_athena_client s
  | n + 1, s => nthClientCall n (get_athena_client s).2

/-- pat occurs as a contiguous substring of s. -/
def containsStr (s pat : String) : Prop :=
  pat.data <:+: s.data

instance (s pat : String) : Decidable (containsStr s pat) :=
  inferInstanceAs (Decidable (pat.data <:+: s.data))

/-- A client whose submission succeeds, whose every poll reports the given
status, and whose result fetch yields the given rows. -/
def constClient (st : QueryStatus) (rows : List Row) : AthenaClient :=
  { startQueryExecution := fun _ _ _ => Except.ok "qid-0"
    getQueryExecution := fun _ _ => Except.ok st
    getQueryResults := fun _ => Except.ok { rows := rows } }

def succeededStatus : QueryStatus :=
  { state := "SUCCEEDED", stateChangeReason := none }

def runningStatus : QueryStatus :=
  { state := "RUNNING", stateChangeReason := none }

/-- A one-column header row. -/
def sampleHeader : Row := { data := [{ varCharValue := some "id" }] }

/-- A one-cell data row with the given value. -/
def sampleRow (v : String) : Row := { data := [{ varCharValue := some v }] }

/-- A result set holding only a header row and no data rows. -/
def headerOnlyRows : List Row := [{ data := [{ varCharValue := some "col1" }] }]

def headerOnlyClient : AthenaClient := constClient succeededStatus headerOnlyRows

def emptyClient : AthenaClient := constClient succeededStatus []

def twoRowClient : AthenaClient :=
  constClient succeededStatus [sampleHeader, sampleRow "1", sampleRow "2"]

def twelveRowClient : AthenaClient :=
  constClient succeededStatus (sampleHeader :: List.replicate 12 (sampleRow "v"))

/-- Eleven data rows: ten with a value, the eleventh with a missing value,
so the only null cell lies beyond the 10-row preview. -/
def truncatedNullRows : List Row :=
  { data := [{ varCharValue := some "a" }] } ::
    (List.replicate 10 { data := [{ varCharValue := some "x" }] } ++
      [{ data := [{ varCharValue := none }] }])

def truncatedNullClient : AthenaClient := constClient succeededStatus truncatedNullRows

/-- One data row whose single cell has a missing value. -/
def nullCellClient : AthenaClient :=
  constClient succeededStatus
    [sampleHeader, { data := [{ varCharValue := none }] }]

/-- A header row with a missing value followed by one data row. -/
def missingHeaderClient : AthenaClient :=
  constClient succeededStatus
    [{ data := [{ varCharValue := none }] }, sampleRow "v"]

def failedStatus : QueryStatus :=
  { state := "FAILED", stateChangeReason := some "SYNTAX_ERROR: line 1" }

def failedClient : AthenaClient := constClient failedStatus []

def runningClient : AthenaClient := constClient runningStatus []

/-- A client that reports RUNNING on the first poll and CANCELLED on every
later poll. -/
def cancelAfterOneClient : AthenaClient :=
  { startQueryExecution := fun _ _ _ => Except.ok "qid-0"
    getQueryExecution := fun _ i =>
      if i = 0 then Except.ok runningStatus
      else Except.ok { state := "CANCELLED", stateChangeReason := none }
    getQueryResults := fun _ => Except.error "unreachable" }

/-- A client whose submission fails. -/
def startFaultClient : AthenaClient :=
  { startQueryExecution := fun _ _ _ => Except.error "AccessDeniedException"
    getQueryExecution := fun _ _ => Except.ok runningStatus
    getQueryResults := fun _ => Except.error "unreachable" }

/-- A client whose polls fail. -/
def pollFaultClient : AthenaClient :=
  { startQueryExecution := fun _ _ _ => Except.ok "qid-0"
    getQueryExecution := fun _ _ => Except.error "ThrottlingException"
    getQueryResults := fun _ => Except.error "unreachable" }

/-- A client whose result fetch fails after a successful run. -/
def fetchFaultClient : AthenaClient :=
  { startQueryExecution := fun _ _ _ => Except.ok "qid-0"
    getQueryExecution := fun _ _ => Except.ok succeededStatus
    getQueryResults := fun _ => Except.error "ConnectionError" }

/-- A client that echoes the submitted statement back as a fault, making the
exact submitted query observable in the returned text. -/
def probeClient : AthenaClient :=
  { startQueryExecution := fun q _ _ => Except.error q
    getQueryExecution := fun _ _ => Except.ok runningStatus
    getQueryResults := fun _ => Except.error "unreachable" }

/-- Unfolding: a poll that observes a terminal status stops the loop with
that status. -/
theorem pollLoop_ok_terminal (poll : Nat → Except String QueryStatus)
    (a r : Nat) (st : QueryStatus) (hp : poll a = Except.ok st)
    (ht : isTerminalState st.state = true) :
    pollLoop poll a (r + 1) = Except.ok st := by
  cases r with
  | zero => simpa [pollLoop] using hp
  | succ r => simp [pollLoop, hp, ht]

/-- Unfolding: a poll that raises propagates the fault out of the loop. -/
theorem pollLoop_raise (poll : Nat → Except String QueryStatus)
    (a r : Nat) (e : String) (hp : poll a = Except.error e) :
    pollLoop poll a (r + 1) = Except.error e := by
  cases r with
  | zero => simpa [pollLoop] using hp
  | succ r => simp [pollLoop, hp]

/-- Unfolding: a non-terminal poll with budget left continues the loop. -/
theorem pollLoop_step (poll : Nat → Except String QueryStatus)
    (a r : Nat) (st : QueryStatus) (hp : poll a = Except.ok st)
    (ht : isTerminalState st.state = false) :
    pollLoop poll a (r + 2) = pollLoop poll (a + 1) (r + 1) := by
  simp [pollLoop, hp, ht]

/-- Unfolding: on the final attempt the loop ends with the observed status
(the timeout path keeps the last observed status). -/
theorem pollLoop_last (poll : Nat → Except String QueryStatus)
    (a : Nat) (st : QueryStatus) (hp : poll a = Except.ok st) :
    pollLoop poll a 1 = Except.ok st := by
  simpa [pollLoop] using hp

/-- If the first k polls are non-terminal and poll k observes a terminal
status, the loop returns that status, for any budget larger than k. -/
theorem pollLoop_reaches_terminal (poll : Nat → Except String QueryStatus) :
    ∀ (k a r : Nat), k < r →
    (∀ i, i < k → ∃ s, poll (a + i) = Except.ok s ∧ isTerminalState s.state = false) →
    ∀ st, poll (a + k) = Except.ok st → isTerminalState st.state = true →
    pollLoop poll a r = Except.ok st := by
  intro k
  induction k with
  | zero =>
    intro a r hr _ st hp ht
    obtain ⟨r1, rfl⟩ : ∃ r1, r = r1 + 1 := ⟨r - 1, by omega⟩
    exact pollLoop_ok_terminal poll a r1 st (by simpa using hp) ht
  | succ k ih =>
    intro a r hr hpre st hp ht
    obtain ⟨s0, hs0, hnt0⟩ := hpre 0 (Nat.succ_pos k)
    obtain ⟨r2, rfl⟩ : ∃ r2, r = r2 + 2 := ⟨r - 2, by omega⟩
    rw [pollLoop_step poll a r2 s0 (by simpa using hs0) hnt0]
    refine ih (a + 1) (r2 + 1) (by omega) ?_ st ?_ ht
    · intro i hi
      obtain ⟨s, hs, hnt⟩ := hpre (i + 1) (by omega)
      refine ⟨s, ?_, hnt⟩
      rw [show a + 1 + i = a + (i + 1) by omega]
      exact hs
    · rw [show a + 1 + k = a + (k + 1) by omega]
      exact hp

/-- If the first k polls are non-terminal and poll k raises, the loop
propagates the fault, for any budget larger than k. -/
theorem pollLoop_reaches_fault (poll : Nat → Except String QueryStatus) :
    ∀ (k a r : Nat), k < r →
    (∀ i, i < k → ∃ s, poll (a + i) = Except.ok s ∧ isTerminalState s.state = false) →
    ∀ e, poll (a + k) = Except.error e →
    pollLoop poll a r = Except.error e := by
  intro k
  induction k with
  | zero =>
    intro a r hr _ e hp
    obtain ⟨r1, rfl⟩ : ∃ r1, r = r1 + 1 := ⟨r - 1, by omega⟩
    exact pollLoop_raise poll a r1 e (by simpa using hp)
  | succ k ih =>
    intro a r hr hpre e hp
    obtain ⟨s0, hs0, hnt0⟩ := hpre 0 (Nat.succ_pos k)
    obtain ⟨r2, rfl⟩ : ∃ r2, r = r2 + 2 := ⟨r - 2, by omega⟩
    rw [pollLoop_step poll a r2 s0 (by simpa using hs0) hnt0]
    refine ih (a + 1) (r2 + 1) (by omega) ?_ e ?_
    · intro i hi
      obtain ⟨s, hs, hnt⟩ := hpre (i + 1) (by omega)
      refine ⟨s, ?_, hnt⟩
      rw [show a + 1 + i = a + (i + 1) by omega]
      exact hs
    · rw [show a + 1 + k = a + (k + 1) by omega]
      exact hp

/-- If every poll within the budget is non-terminal, the loop exhausts its
budget and returns the status observed by the final poll. -/
theorem pollLoop_exhausts (poll : Nat → Except String QueryStatus) :
    ∀ (r a : Nat), 0 < r →
    (∀ i, i < r → ∃ s, poll (a + i) = Except.ok s ∧ isTerminalState s.state = false) →
    ∀ st, poll (a + (r - 1)) = Except.ok st →
    pollLoop poll a r = Except.ok st := by
  intro r
  induction r with
  | zero => intro a h; omega
  | succ r ih =>
    intro a _ hpre st hp
    cases r with
    | zero =>
      exact pollLoop_last poll a st (by simpa using hp)
    | succ r0 =>
      obtain ⟨s0, hs0, hnt0⟩ := hpre 0 (by omega)
      rw [pollLoop_step poll a r0 s0 (by simpa using hs0) hnt0]
      refine ih (a + 1) (by omega) ?_ st ?_
      · intro i hi
        obtain ⟨s, hs, hnt⟩ := hpre (i + 1) (by omega)
        refine ⟨s, ?_, hnt⟩
        rw [show a + 1 + i = a + (i + 1) by omega]
        exact hs
      · rw [show a + 1 + (r0 + 1 - 1) = a + (r0 + 2 - 1) by omega]
        exact hp

/-- A fault raised by the submission is converted into the Error text. -/
theorem execute_of_start_fault (client : AthenaClient) (q out e : String)
    (hstart : client.startQueryExecution q DATABASE_NAME out = Except.error e) :
    _execute_query_internal client q out = errorText e := by
  simp [_execute_query_internal, runQuery, hstart, Bind.bind, Except.bind]

/-- A fault escaping the poll loop is converted into the Error text. -/
theorem execute_of_poll_fault (client : AthenaClient) (q out qid e : String)
    (hstart : client.startQueryExecution q DATABASE_NAME out = Except.ok qid)
    (hpoll : pollLoop (client.getQueryExecution qid) 0 maxAttempts = Except.error e) :
    _execute_query_internal client q out = errorText e := by
  simp [_execute_query_internal, runQuery, hstart, hpoll, Bind.bind, Except.bind]

/-- SUCCEEDED with a fault raised by the result fetch: Error text. -/
theorem execute_of_fetch_fault (client : AthenaClient) (q out qid e : String)
    (st : QueryStatus)
    (hstart : client.startQueryExecution q DATABASE_NAME out = Except.ok qid)
    (hpoll : pollLoop (client.getQueryExecution qid) 0 maxAttempts = Except.ok st)
    (hstate : st.state = "SUCCEEDED")
    (hres : client.getQueryResults qid = Except.error e) :
    _execute_query_internal client q out = errorText e := by
  have h1 : (st.state == "SUCCEEDED") = true := by rw [hstate]; rfl
  simp [_execute_query_internal, runQuery, hstart, hpoll, hres, h1,
    Bind.bind, Except.bind]

/-- SUCCEEDED with a formatted result: the formatted text is returned. -/
theorem execute_of_success_ok (client : AthenaClient) (q out qid s : String)
    (st : QueryStatus) (rs : ResultSet)
    (hstart : client.startQueryExecution q DATABASE_NAME out = Except.ok qid)
    (hpoll : pollLoop (client.getQueryExecution qid) 0 maxAttempts = Except.ok st)
    (hstate : st.state = "SUCCEEDED")
    (hres : client.getQueryResults qid = Except.ok rs)
    (hfmt : formatResults rs.rows = Except.ok s) :
    _execute_query_internal client q out = s := by
  have h1 : (st.state == "SUCCEEDED") = true := by rw [hstate]; rfl
  simp [_execute_query_internal, runQuery, hstart, hpoll, hres, hfmt, h1,
    Bind.bind, Except.bind]

/-- SUCCEEDED with a fault raised while formatting (a strict header lookup):
Error text. -/
theorem execute_of_success_err (client : AthenaClient) (q out qid e : String)
    (st : QueryStatus) (rs : ResultSet)
    (hstart : client.startQueryExecution q DATABASE_NAME out = Except.ok qid)
    (hpoll : pollLoop (client.getQueryExecution qid) 0 maxAttempts = Except.ok st)
    (hstate : st.state = "SUCCEEDED")
    (hres : client.getQueryResults qid = Except.ok rs)
    (hfmt : formatResults rs.rows = Except.error e) :
    _execute_query_internal client q out = errorText e := by
  have h1 : (st.state == "SUCCEEDED") = true := by rw [hstate]; rfl
  simp [_execute_query_internal, runQuery, hstart, hpoll, hres, hfmt, h1,
    Bind.bind, Except.bind]

/-- The FAILED branch message. -/
theorem execute_of_failed (client : AthenaClient) (q out qid : String)
    (st : QueryStatus)
    (hstart : client.startQueryExecution q DATABASE_NAME out = Except.ok qid)
    (hpoll : pollLoop (client.getQueryExecution qid) 0 maxAttempts = Except.ok st)
    (hstate : st.state = "FAILED") :
    _execute_query_internal client q out =
      "Query failed: " ++ st.stateChangeReason.getD "Unknown error" := by
  have h1 : (st.state == "SUCCEEDED") = false := by rw [hstate]; rfl
  have h2 : (st.state == "FAILED") = true := by rw [hstate]; rfl
  simp [_execute_query_internal, runQuery, hstart, hpoll, h1, h2,
    Bind.bind, Except.bind, Pure.pure, Except.pure]

/-- The CANCELLED branch message. -/
theorem execute_of_cancelled (client : AthenaClient) (q out qid : String)
    (st : QueryStatus)
    (hstart : client.startQueryExecution q DATABASE_NAME out = Except.ok qid)
    (hpoll : pollLoop (client.getQueryExecution qid) 0 maxAttempts = Except.ok st)
    (hstate : st.state = "CANCELLED") :
    _execute_query_internal client q out = "Query was cancelled." := by
  have h1 : (st.state == "SUCCEEDED") = false := by rw [hstate]; rfl
  have h2 : (st.state == "FAILED") = false := by rw [hstate]; rfl
  have h3 : (st.state == "CANCELLED") = true := by rw [hstate]; rfl
  simp [_execute_query_internal, runQuery, hstart, hpoll, h1, h2, h3,
    Bind.bind, Except.bind, Pure.pure, Except.pure]

/-- The fall-through branch: a non-terminal final status yields the timeout
message carrying that status. -/
theorem execute_of_nonterminal (client : AthenaClient) (q out qid : String)
    (st : QueryStatus)
    (hstart : client.startQueryExecution q DATABASE_NAME out = Except.ok qid)
    (hpoll : pollLoop (client.getQueryExecution qid) 0 maxAttempts = Except.ok st)
    (hterm : isTerminalState st.state = false) :
    _execute_query_internal client q out =
      "Query timed out after " ++ toString maxAttempts ++
        " seconds. Status: " ++ st.state := by
  have hne1 : st.state ≠ "SUCCEEDED" := fun hs => by
    simp [isTerminalState, hs] at hterm
  have hne2 : st.state ≠ "FAILED" := fun hs => by
    simp [isTerminalState, hs] at hterm
  have hne3 : st.state ≠ "CANCELLED" := fun hs => by
    simp [isTerminalState, hs] at hterm
  have h1 : (st.state == "SUCCEEDED") = false := beq_eq_false_iff_ne.mpr hne1
  have h2 : (st.state == "FAILED") = false := beq_eq_false_iff_ne.mpr hne2
  have h3 : (st.state == "CANCELLED") = false := beq_eq_false_iff_ne.mpr hne3
  simp [_execute_query_internal, runQuery, hstart, hpoll, h1, h2, h3,
    Bind.bind, Except.bind, Pure.pure, Except.pure]

/-- Every string is a substring of itself. -/
theorem containsStr_self (s : String) : containsStr s s :=
  List.infix_rfl

/-- A substring of the left part is a substring of the whole. -/
theorem containsStr_append_left (a b pat : String) (h : containsStr a pat) :
    containsStr (a ++ b) pat := by
  unfold containsStr at h ⊢
  rw [String.data_append]
  exact List.IsInfix.trans h (List.IsPrefix.isInfix (List.prefix_append a.data b.data))

/-- A substring of the right part is a substring of the whole. -/
theorem containsStr_append_right (a b pat : String) (h : containsStr b pat) :
    containsStr (a ++ b) pat := by
  unfold containsStr at h ⊢
  rw [String.data_append]
  exact List.IsInfix.trans h (List.IsSuffix.isInfix (List.suffix_append a.data b.data))

/-- Every element of a joined list occurs in the joined string. -/
theorem containsStr_pyJoin (sep x : String) (l : List String) (h : x ∈ l) :
    containsStr (pyJoin sep l) x := by
  induction l with
  | nil => cases h
  | cons y ys ih =>
    cases ys with
    | nil =>
      have hx : x = y := by simpa using h
      subst hx
      exact containsStr_self x
    | cons z rest =>
      rcases List.mem_cons.mp h with hx | hx
      · subst hx
        exact containsStr_append_left _ _ x
          (containsStr_append_left _ _ x (containsStr_self x))
      · exact containsStr_append_right _ _ x (ih hx)

/-- The rendered line of every listed row occurs in the rendering of the
list. -/
theorem containsStr_renderRows (r : Row) (l : List Row) (h : r ∈ l) :
    containsStr (renderRows l) (formatRow r) := by
  induction l with
  | nil => cases h
  | cons x xs ih =>
    rcases List.mem_cons.mp h with hx | hx
    · subst hx
      exact containsStr_append_left _ _ _ (containsStr_self _)
    · exact containsStr_append_right _ _ _ (ih hx)

/-- A row containing a cell with a missing value renders the literal NULL
inside its line. -/
theorem formatRow_contains_NULL (r : Row) (c : Cell) (hc : c ∈ r.data)
    (hnone : c.varCharValue = none) :
    containsStr (formatRow r) "NULL" := by
  have hv : cellValue c = "NULL" := by simp [cellValue, hnone]
  have hmem : "NULL" ∈ r.data.map cellValue := by
    rw [← hv]
    exact List.mem_map_of_mem cellValue hc
  exact containsStr_append_left _ _ _ (containsStr_pyJoin " | " "NULL" _ hmem)

/-- The success report never coincides with the fixed no-results string:
the banner of the former has an exclamation mark that the latter lacks. -/
theorem successHeader_ne_noResults (headers : List String) (n : Nat) :
    successHeader headers n ≠
      "Query executed successfully but returned no results." := by
  intro h
  have hbang : Char.ofNat 33 ∈ "Query executed successfully!\n\n".data := by decide
  have hmem : Char.ofNat 33 ∈ (successHeader headers n).data := by
    simp only [successHeader, String.data_append]
    exact List.mem_append_left _ (List.mem_append_left _ (List.mem_append_left _
      (List.mem_append_left _ (List.mem_append_left _ (List.mem_append_left _ hbang)))))
  rw [h] at hmem
  exact absurd hmem (by decide)

/-- The strict header lookups raise on the first missing value, so a header
row with any missing cell makes extraction fail with the KeyError text. -/
theorem extractHeaders_error_of_none (l : List Cell) (c : Cell) (hc : c ∈ l)
    (hnone : c.varCharValue = none) :
    extractHeaders l = Except.error "KeyError: VarCharValue" := by
  induction l with
  | nil => cases hc
  | cons d ds ih =>
    cases hm : d.varCharValue with
    | none => simp [extractHeaders, hm]
    | some v =>
      rcases List.mem_cons.mp hc with hx | hx
      · subst hx
        rw [hnone] at hm
        cases hm
      · simp [extractHeaders, hm, ih hx, Except.map]

/-- Formatting a header plus at most ten data rows: all data rows render
and no truncation suffix appears. -/
theorem formatResults_few (hdr : Row) (dataRows : List Row)
    (names : List String)
    (hhdr : extractHeaders hdr.data = Except.ok names)
    (hlen : dataRows.length ≤ 10) :
    formatResults (hdr :: dataRows) =
      Except.ok (successHeader names dataRows.length ++ renderRows dataRows) := by
  simp [formatResults, hhdr, Except.map, List.take_of_length_le hlen,
    Nat.not_lt.mpr hlen]

/-- Formatting a header plus more than ten data rows: the first ten render
and the suffix reports the count of omitted rows. -/
theorem formatResults_many (hdr : Row) (dataRows : List Row)
    (names : List String)
    (hhdr : extractHeaders hdr.data = Except.ok names)
    (hlen : dataRows.length > 10) :
    formatResults (hdr :: dataRows) =
      Except.ok (successHeader names dataRows.length ++
        renderRows (dataRows.take 10) ++
        "\n... and " ++ toString (dataRows.length - 10) ++ " more rows") := by
  simp [formatResults, hhdr, Except.map, hlen]

/-- C1 counterexample: a result set consisting of a header row only does
not produce a string stating "returned no results"; the report instead
carries the column list and a zero row count. -/
theorem header_only_report_lacks_no_results_text :
    ¬ containsStr
      (_execute_query_internal headerOnlyClient "SELECT 1" OUTPUT_LOCATION)
      "returned no results" := by
  decide

/-- C1 (amended): on a successful execution, a wholly empty result set
(zero rows, not even a header) yields exactly the fixed string "Query
executed successfully but returned no results.", while a header-only result
set (one row, zero data rows) yields the success report with a zero row
count, a different string from the no-results one. -/
theorem empty_vs_header_only_report (client : AthenaClient)
    (q out qid : String) (st : QueryStatus) (rs : ResultSet) (k : Nat)
    (hstart : client.startQueryExecution q DATABASE_NAME out = Except.ok qid)
    (hk : k < maxAttempts)
    (hpre : ∀ i, i < k → ∃ s, client.getQueryExecution qid i = Except.ok s ∧
      isTerminalState s.state = false)
    (hobs : client.getQueryExecution qid k = Except.ok st)
    (hstate : st.state = "SUCCEEDED")
    (hres : client.getQueryResults qid = Except.ok rs) :
    (rs.rows = [] →
      _execute_query_internal client q out =
        "Query executed successfully but returned no results.") ∧
    (∀ hdr names, rs.rows = [hdr] →
      extractHeaders hdr.data = Except.ok names →
      _execute_query_internal client q out = successHeader names 0 ∧
      _execute_query_internal client q out ≠
        "Query executed successfully but returned no results.") := by
  have hpoll : pollLoop (client.getQueryExecution qid) 0 maxAttempts =
      Except.ok st :=
    pollLoop_reaches_terminal (client.getQueryExecution qid) k 0 maxAttempts hk
      (by simpa using hpre) st (by simpa using hobs) (by rw [hstate]; rfl)
  constructor
  · intro hrows
    exact execute_of_success_ok client q out qid _ st rs hstart hpoll hstate hres
      (by rw [hrows]; rfl)
  · intro hdr names hrows hn
    have hfmt : formatResults rs.rows = Except.ok (successHeader names 0) := by
      rw [hrows, formatResults_few hdr [] names hn (by simp)]
      simp [renderRows, String.append_empty]
    have h := execute_of_success_ok client q out qid _ st rs hstart hpoll
      hstate hres hfmt
    exact ⟨h, by rw [h]; exact successHeader_ne_noResults names 0⟩

/-- C1 witness: the wholly empty result set produces the no-results
string. -/
theorem empty_vs_header_only_report_witness :
    _execute_query_internal emptyClient "SELECT 1" OUTPUT_LOCATION =
      "Query executed successfully but returned no results." :=
  (empty_vs_header_only_report emptyClient "SELECT 1" OUTPUT_LOCATION "qid-0"
    succeededStatus { rows := [] } 0 rfl (by decide)
    (fun i hi => absurd hi (Nat.not_lt_zero i)) rfl rfl rfl).1 rfl

/-- C2: on a successful execution with N data rows, at most ten data rows
yield a report rendering exactly those N rows with no truncation suffix,
and more than ten data rows yield a report rendering exactly the first ten
followed by the suffix counting the N-10 omitted rows. -/
theorem row_preview_bounds (client : AthenaClient) (q out qid : String)
    (st : QueryStatus) (rs : ResultSet) (k : Nat) (hdr : Row)
    (dataRows : List Row) (names : List String)
    (hstart : client.startQueryExecution q DATABASE_NAME out = Except.ok qid)
    (hk : k < maxAttempts)
    (hpre : ∀ i, i < k → ∃ s, client.getQueryExecution qid i = Except.ok s ∧
      isTerminalState s.state = false)
    (hobs : client.getQueryExecution qid k = Except.ok st)
    (hstate : st.state = "SUCCEEDED")
    (hres : client.getQueryResults qid = Except.ok rs)
    (hrows : rs.rows = hdr :: dataRows)
    (hhdr : extractHeaders hdr.data = Except.ok names) :
    (dataRows.length ≤ 10 →
      _execute_query_internal client q out =
        successHeader names dataRows.length ++ renderRows dataRows) ∧
    (dataRows.length > 10 →
      _execute_query_internal client q out =
        successHeader names dataRows.length ++ renderRows (dataRows.take 10) ++
          "\n... and " ++ toString (dataRows.length - 10) ++ " more rows") := by
  have hpoll : pollLoop (client.getQueryExecution qid) 0 maxAttempts =
      Except.ok st :=
    pollLoop_reaches_terminal (client.getQueryExecution qid) k 0 maxAttempts hk
      (by simpa using hpre) st (by simpa using hobs) (by rw [hstate]; rfl)
  constructor
  · intro hlen
    exact execute_of_success_ok client q out qid _ st rs hstart hpoll hstate hres
      (by rw [hrows]; exact formatResults_few hdr dataRows names hhdr hlen)
  · intro hlen
    exact execute_of_success_ok client q out qid _ st rs hstart hpoll hstate hres
      (by rw [hrows]; exact formatResults_many hdr dataRows names hhdr hlen)

set_option maxRecDepth 65536 in
/-- C2 witness: two data rows render in full without a suffix; twelve data
rows render as ten rows plus a suffix counting the two omitted ones. -/
theorem row_preview_bounds_witness :
    _execute_query_internal twoRowClient "SELECT 1" OUTPUT_LOCATION =
      "Query executed successfully!\n\nColumns: id\n\nResults (2 rows):\n1\n2\n" ∧
    _execute_query_internal twelveRowClient "SELECT 1" OUTPUT_LOCATION =
      "Query executed successfully!\n\nColumns: id\n\nResults (12 rows):\nv\nv\nv\nv\nv\nv\nv\nv\nv\nv\n\n... and 2 more rows" := by
  constructor
  · have h := (row_preview_bounds twoRowClient "SELECT 1" OUTPUT_LOCATION "qid-0"
      succeededStatus { rows := [sampleHeader, sampleRow "1", sampleRow "2"] } 0
      sampleHeader [sampleRow "1", sampleRow "2"] ["id"] rfl (by decide)
      (fun i hi => absurd hi (Nat.not_lt_zero i)) rfl rfl rfl rfl rfl).1
      (by decide)
    exact h.trans (by decide)
  · have h := (row_preview_bounds twelveRowClient "SELECT 1" OUTPUT_LOCATION
      "qid-0" succeededStatus
      { rows := sampleHeader :: List.replicate 12 (sampleRow "v") } 0
      sampleHeader (List.replicate 12 (sampleRow "v")) ["id"] rfl (by decide)
      (fun i hi => absurd hi (Nat.not_lt_zero i)) rfl rfl rfl rfl rfl).2
      (by decide)
    exact h.trans (by decide)

/-- C3: any fault raised during submission, polling, or result fetch is
converted into the returned Error text carrying the original message and
the diagnostic trace; the tool functions are total and each wrapper
delegates to the same orchestrator, so nothing raises past the tool
boundary. -/
theorem faults_become_error_text (client : AthenaClient) (q out : String) :
    (∀ e, client.startQueryExecution q DATABASE_NAME out = Except.error e →
      execute_athena_query client q out = errorText e) ∧
    (∀ qid e k, client.startQueryExecution q DATABASE_NAME out = Except.ok qid →
      k < maxAttempts →
      (∀ i, i < k → ∃ s, client.getQueryExecution qid i = Except.ok s ∧
        isTerminalState s.state = false) →
      client.getQueryExecution qid k = Except.error e →
      execute_athena_query client q out = errorText e) ∧
    (∀ qid e k st,
      client.startQueryExecution q DATABASE_NAME out = Except.ok qid →
      k < maxAttempts →
      (∀ i, i < k → ∃ s, client.getQueryExecution qid i = Except.ok s ∧
        isTerminalState s.state = false) →
      client.getQueryExecution qid k = Except.ok st →
      st.state = "SUCCEEDED" →
      client.getQueryResults qid = Except.error e →
      execute_athena_query client q out = errorText e) ∧
    (list_tables client =
      execute_athena_query client ("SHOW TABLES IN " ++ DATABASE_NAME)
        OUTPUT_LOCATION) ∧
    (∀ t, describe_table client t =
      execute_athena_query client ("DESCRIBE " ++ DATABASE_NAME ++ "." ++ t)
        OUTPUT_LOCATION) ∧
    (∀ t l, get_table_sample client t l =
      execute_athena_query client
        ("SELECT * FROM " ++ DATABASE_NAME ++ "." ++ t ++ " LIMIT " ++
          toString l) OUTPUT_LOCATION) := by
  refine ⟨?_, ?_, ?_, rfl, fun t => rfl, fun t l => rfl⟩
  · intro e hstart
    exact execute_of_start_fault client q out e hstart
  · intro qid e k hstart hk hpre hp
    exact execute_of_poll_fault client q out qid e hstart
      (pollLoop_reaches_fault (client.getQueryExecution qid) k 0 maxAttempts hk
        (by simpa using hpre) e (by simpa using hp))
  · intro qid e k st hstart hk hpre hobs hstate hres
    exact execute_of_fetch_fault client q out qid e st hstart
      (pollLoop_reaches_terminal (client.getQueryExecution qid) k 0 maxAttempts
        hk (by simpa using hpre) st (by simpa using hobs)
        (by rw [hstate]; rfl))
      hstate hres

/-- C3 witness: a submission fault, a poll fault, and a fetch fault each
surface as the Error text carrying the original message. -/
theorem faults_become_error_text_witness :
    execute_athena_query startFaultClient "SELECT 1" OUTPUT_LOCATION =
      errorText "AccessDeniedException" ∧
    execute_athena_query pollFaultClient "SELECT 1" OUTPUT_LOCATION =
      errorText "ThrottlingException" ∧
    execute_athena_query fetchFaultClient "SELECT 1" OUTPUT_LOCATION =
      errorText "ConnectionError" :=
  ⟨(faults_become_error_text startFaultClient "SELECT 1" OUTPUT_LOCATION).1
      "AccessDeniedException" rfl,
    (faults_become_error_text pollFaultClient "SELECT 1" OUTPUT_LOCATION).2.1
      "qid-0" "ThrottlingException" 0 rfl (by decide)
      (fun i hi => absurd hi (Nat.not_lt_zero i)) rfl,
    (faults_become_error_text fetchFaultClient "SELECT 1" OUTPUT_LOCATION).2.2.1
      "qid-0" "ConnectionError" 0 succeededStatus rfl (by decide)
      (fun i hi => absurd hi (Nat.not_lt_zero i)) rfl rfl rfl⟩

set_option maxRecDepth 400000 in
/-- C4 counterexample: a successful result set with eleven data rows whose
only missing value sits in the eleventh row renders no NULL text anywhere:
the cell is omitted with its whole row by the ten-row preview. -/
theorem null_cell_beyond_preview_omitted :
    (({ data := [{ varCharValue := none }] } : Row) ∈ truncatedNullRows) ∧
    ¬ containsStr
      (_execute_query_internal truncatedNullClient "SELECT 1" OUTPUT_LOCATION)
      "NULL" := by
  exact ⟨by decide, by decide⟩

/-- C4 (amended): on a successful execution whose header cells all carry
values, every cell with a missing value that lies in one of the first ten
data rows is rendered as the literal text NULL: its row's rendered line
occurs in the output and carries the NULL text.  Missing cells in the
header row or beyond the ten-row preview are not rendered (the header case
errors instead, and later rows are cut off with the preview). -/
theorem null_cells_in_preview_render_NULL (client : AthenaClient)
    (q out qid : String) (st : QueryStatus) (rs : ResultSet) (k : Nat)
    (hdr : Row) (dataRows : List Row) (names : List String) (r : Row) (c : Cell)
    (hstart : client.startQueryExecution q DATABASE_NAME out = Except.ok qid)
    (hk : k < maxAttempts)
    (hpre : ∀ i, i < k → ∃ s, client.getQueryExecution qid i = Except.ok s ∧
      isTerminalState s.state = false)
    (hobs : client.getQueryExecution qid k = Except.ok st)
    (hstate : st.state = "SUCCEEDED")
    (hres : client.getQueryResults qid = Except.ok rs)
    (hrows : rs.rows = hdr :: dataRows)
    (hhdr : extractHeaders hdr.data = Except.ok names)
    (hr : r ∈ dataRows.take 10) (hc : c ∈ r.data)
    (hnone : c.varCharValue = none) :
    cellValue c = "NULL" ∧
    containsStr (_execute_query_internal client q out) (formatRow r) ∧
    containsStr (formatRow r) "NULL" := by
  have hpoll : pollLoop (client.getQueryExecution qid) 0 maxAttempts =
      Except.ok st :=
    pollLoop_reaches_terminal (client.getQueryExecution qid) k 0 maxAttempts hk
      (by simpa using hpre) st (by simpa using hobs) (by rw [hstate]; rfl)
  refine ⟨by simp [cellValue, hnone], ?_, formatRow_contains_NULL r c hc hnone⟩
  by_cases hlen : dataRows.length > 10
  · have h := execute_of_success_ok client q out qid _ st rs hstart hpoll
      hstate hres (by rw [hrows]; exact formatResults_many hdr dataRows names hhdr hlen)
    rw [h]
    exact containsStr_append_left _ _ _ (containsStr_append_left _ _ _
      (containsStr_append_left _ _ _ (containsStr_append_right _ _ _
        (containsStr_renderRows r _ hr))))
  · have hle : dataRows.length ≤ 10 := by omega
    have h := execute_of_success_ok client q out qid _ st rs hstart hpoll
      hstate hres (by rw [hrows]; exact formatResults_few hdr dataRows names hhdr hle)
    rw [h]
    exact containsStr_append_right _ _ _
      (containsStr_renderRows r _ (List.mem_of_mem_take hr))

/-- C4 witness: a missing cell in the first data row renders as NULL inside
its rendered line, which occurs in the report. -/
theorem null_cells_in_preview_render_NULL_witness :
    cellValue { varCharValue := none } = "NULL" ∧
    containsStr (_execute_query_internal nullCellClient "SELECT 1" OUTPUT_LOCATION)
      (formatRow { data := [{ varCharValue := none }] }) ∧
    containsStr (formatRow { data := [{ varCharValue := none }] }) "NULL" :=
  null_cells_in_preview_render_NULL nullCellClient "SELECT 1" OUTPUT_LOCATION
    "qid-0" succeededStatus
    { rows := [sampleHeader, { data := [{ varCharValue := none }] }] } 0
    sampleHeader [{ data := [{ varCharValue := none }] }] ["id"]
    { data := [{ varCharValue := none }] } { varCharValue := none }
    rfl (by decide) (fun i hi => absurd hi (Nat.not_lt_zero i)) rfl rfl rfl rfl
    rfl (by decide) (by decide) rfl

/-- C5: whenever some poll observes the FAILED status (after any number of
non-terminal polls within the budget), the returned string is the failure
message carrying the engine-provided reason, or the text "Unknown error"
when no reason is supplied, and the reason text occurs in the output. -/
theorem failed_status_reports_reason (client : AthenaClient)
    (q out qid : String) (st : QueryStatus) (k : Nat)
    (hstart : client.startQueryExecution q DATABASE_NAME out = Except.ok qid)
    (hk : k < maxAttempts)
    (hpre : ∀ i, i < k → ∃ s, client.getQueryExecution qid i = Except.ok s ∧
      isTerminalState s.state = false)
    (hobs : client.getQueryExecution qid k = Except.ok st)
    (hstate : st.state = "FAILED") :
    execute_athena_query client q out =
      "Query failed: " ++ st.stateChangeReason.getD "Unknown error" ∧
    (st.stateChangeReason = none →
      execute_athena_query client q out = "Query failed: Unknown error") ∧
    containsStr (execute_athena_query client q out)
      (st.stateChangeReason.getD "Unknown error") := by
  have hpoll : pollLoop (client.getQueryExecution qid) 0 maxAttempts =
      Except.ok st :=
    pollLoop_reaches_terminal (client.getQueryExecution qid) k 0 maxAttempts hk
      (by simpa using hpre) st (by simpa using hobs) (by rw [hstate]; rfl)
  have h : execute_athena_query client q out =
      "Query failed: " ++ st.stateChangeReason.getD "Unknown error" :=
    execute_of_failed client q out qid st hstart hpoll hstate
  refine ⟨h, fun hn => by rw [h, hn]; rfl, ?_⟩
  rw [h]
  exact containsStr_append_right _ _ _ (containsStr_self _)

/-- C5 witness: a FAILED status carrying a reason yields the failure
message with that reason. -/
theorem failed_status_reports_reason_witness :
    execute_athena_query failedClient "SELECT 1" OUTPUT_LOCATION =
      "Query failed: SYNTAX_ERROR: line 1" :=
  ((failed_status_reports_reason failedClient "SELECT 1" OUTPUT_LOCATION
    "qid-0" failedStatus 0 rfl (by decide)
    (fun i hi => absurd hi (Nat.not_lt_zero i)) rfl rfl).1).trans rfl

/-- C6: when every one of the 30 polls observes a non-terminal status, the
orchestrator stops and returns the timeout message, which names the timeout
and carries the status observed by the final poll. -/
theorem timeout_reports_last_status (client : AthenaClient)
    (q out qid : String) (st : QueryStatus)
    (hstart : client.startQueryExecution q DATABASE_NAME out = Except.ok qid)
    (hpre : ∀ i, i < maxAttempts → ∃ s,
      client.getQueryExecution qid i = Except.ok s ∧
      isTerminalState s.state = false)
    (hlast : client.getQueryExecution qid (maxAttempts - 1) = Except.ok st) :
    execute_athena_query client q out =
      "Query timed out after 30 seconds. Status: " ++ st.state ∧
    containsStr (execute_athena_query client q out) "timed out" ∧
    containsStr (execute_athena_query client q out) st.state := by
  have hterm : isTerminalState st.state = false := by
    obtain ⟨s, hs, hnt⟩ := hpre (maxAttempts - 1) (by decide)
    have hss : st = s := by
      rw [hlast] at hs
      simpa using hs
    rw [hss]
    exact hnt
  have hpoll : pollLoop (client.getQueryExecution qid) 0 maxAttempts =
      Except.ok st :=
    pollLoop_exhausts (client.getQueryExecution qid) maxAttempts 0 (by decide)
      (by simpa using hpre) st (by simpa using hlast)
  have h : execute_athena_query client q out =
      "Query timed out after " ++ toString maxAttempts ++
        " seconds. Status: " ++ st.state :=
    execute_of_nonterminal client q out qid st hstart hpoll hterm
  have h30 : execute_athena_query client q out =
      "Query timed out after 30 seconds. Status: " ++ st.state :=
    h.trans (congrArg (fun x => x ++ st.state) rfl)
  refine ⟨h30, ?_, ?_⟩
  · rw [h30]
    exact containsStr_append_left _ _ _ (by decide)
  · rw [h30]
    exact containsStr_append_right _ _ _ (containsStr_self _)

/-- C6 witness: a query that stays RUNNING for all 30 polls times out with
the RUNNING status in the message. -/
theorem timeout_reports_last_status_witness :
    execute_athena_query runningClient "SELECT 1" OUTPUT_LOCATION =
      "Query timed out after 30 seconds. Status: RUNNING" :=
  ((timeout_reports_last_status runningClient "SELECT 1" OUTPUT_LOCATION
    "qid-0" runningStatus rfl
    (fun _ _ => ⟨runningStatus, rfl, rfl⟩) rfl).1).trans rfl

/-- C7: whenever some poll observes the CANCELLED status (after any number
of non-terminal polls within the budget), the returned string is the fixed
cancellation message, independent of the number of elapsed attempts. -/
theorem cancelled_fixed_message (client : AthenaClient)
    (q out qid : String) (st : QueryStatus) (k : Nat)
    (hstart : client.startQueryExecution q DATABASE_NAME out = Except.ok qid)
    (hk : k < maxAttempts)
    (hpre : ∀ i, i < k → ∃ s, client.getQueryExecution qid i = Except.ok s ∧
      isTerminalState s.state = false)
    (hobs : client.getQueryExecution qid k = Except.ok st)
    (hstate : st.state = "CANCELLED") :
    execute_athena_query client q out = "Query was cancelled." := by
  have hpoll : pollLoop (client.getQueryExecution qid) 0 maxAttempts =
      Except.ok st :=
    pollLoop_reaches_terminal (client.getQueryExecution qid) k 0 maxAttempts hk
      (by simpa using hpre) st (by simpa using hobs) (by rw [hstate]; rfl)
  exact execute_of_cancelled client q out qid st hstart hpoll hstate

/-- C7 witness: cancellation observed on the second poll, after one RUNNING
poll, yields the fixed cancellation message. -/
theorem cancelled_fixed_message_witness :
    execute_athena_query cancelAfterOneClient "SELECT 1" OUTPUT_LOCATION =
      "Query was cancelled." :=
  cancelled_fixed_message cancelAfterOneClient "SELECT 1" OUTPUT_LOCATION
    "qid-0" { state := "CANCELLED", stateChangeReason := none } 1 rfl
    (by decide)
    (fun i hi => by
      have h0 : i = 0 := by omega
      subst h0
      exact ⟨runningStatus, rfl, rfl⟩)
    rfl rfl

/-- C8: the derived tools build exactly their templated statements and
delegate to the orchestrator: list_tables submits SHOW TABLES IN
drm_text2sql_db; describe_table submits DESCRIBE drm_text2sql_db. followed
by the table name; get_table_sample submits the SELECT with the table name
and limit interpolated, the limit defaulting to 10 when omitted.  The probe
conjuncts observe the exact statement handed to the submission call. -/
theorem wrapper_statements_exact :
    (∀ client, list_tables client =
      _execute_query_internal client "SHOW TABLES IN drm_text2sql_db"
        OUTPUT_LOCATION) ∧
    (∀ client t, describe_table client t =
      _execute_query_internal client ("DESCRIBE drm_text2sql_db." ++ t)
        OUTPUT_LOCATION) ∧
    (∀ client, describe_table client "orders" =
      _execute_query_internal client "DESCRIBE drm_text2sql_db.orders"
        OUTPUT_LOCATION) ∧
    (∀ client t l, get_table_sample client t l =
      _execute_query_internal client
        ("SELECT * FROM drm_text2sql_db." ++ t ++ " LIMIT " ++ toString l)
        OUTPUT_LOCATION) ∧
    (∀ client t, get_table_sample client t =
      _execute_query_internal client
        ("SELECT * FROM drm_text2sql_db." ++ t ++ " LIMIT 10")
        OUTPUT_LOCATION) ∧
    (∀ client, get_table_sample client "orders" 5 =
      _execute_query_internal client
        "SELECT * FROM drm_text2sql_db.orders LIMIT 5" OUTPUT_LOCATION) ∧
    (list_tables probeClient = errorText "SHOW TABLES IN drm_text2sql_db") ∧
    (∀ t, describe_table probeClient t =
      errorText ("DESCRIBE drm_text2sql_db." ++ t)) ∧
    (∀ t l, get_table_sample probeClient t l =
      errorText ("SELECT * FROM drm_text2sql_db." ++ t ++ " LIMIT " ++
        toString l)) :=
  ⟨fun _ => rfl, fun _ _ => rfl, fun _ => rfl, fun _ _ _ => rfl,
    fun client t =>
      congrArg (fun s => _execute_query_internal client s OUTPUT_LOCATION)
        (by rw [String.append_assoc]; exact rfl),
    fun _ => rfl, rfl, fun _ => rfl, fun _ _ => rfl⟩

set_option maxRecDepth 100000 in
/-- C9: on a successful execution whose header row has a cell with a
missing value, the strict header lookup raises, the top-level handler
converts the fault, and the whole invocation returns the KeyError text:
no NULL fallback applies to the header row. -/
theorem missing_header_cell_errors (client : AthenaClient)
    (q out qid : String) (st : QueryStatus) (rs : ResultSet) (k : Nat)
    (hdr : Row) (rest : List Row) (c : Cell)
    (hstart : client.startQueryExecution q DATABASE_NAME out = Except.ok qid)
    (hk : k < maxAttempts)
    (hpre : ∀ i, i < k → ∃ s, client.getQueryExecution qid i = Except.ok s ∧
      isTerminalState s.state = false)
    (hobs : client.getQueryExecution qid k = Except.ok st)
    (hstate : st.state = "SUCCEEDED")
    (hres : client.getQueryResults qid = Except.ok rs)
    (hrows : rs.rows = hdr :: rest)
    (hc : c ∈ hdr.data) (hnone : c.varCharValue = none) :
    _execute_query_internal client q out = errorText "KeyError: VarCharValue" ∧
    ¬ containsStr (_execute_query_internal client q out) "NULL" := by
  have hpoll : pollLoop (client.getQueryExecution qid) 0 maxAttempts =
      Except.ok st :=
    pollLoop_reaches_terminal (client.getQueryExecution qid) k 0 maxAttempts hk
      (by simpa using hpre) st (by simpa using hobs) (by rw [hstate]; rfl)
  have hfmt : formatResults rs.rows = Except.error "KeyError: VarCharValue" := by
    rw [hrows]
    simp [formatResults, extractHeaders_error_of_none hdr.data c hc hnone,
      Except.map]
  have h := execute_of_success_err client q out qid _ st rs hstart hpoll
    hstate hres hfmt
  refine ⟨h, ?_⟩
  rw [h]
  decide

/-- C9 witness: a header whose only cell has a missing value turns the
whole call into the KeyError text. -/
theorem missing_header_cell_errors_witness :
    _execute_query_internal missingHeaderClient "SELECT 1" OUTPUT_LOCATION =
      errorText "KeyError: VarCharValue" :=
  (missing_header_cell_errors missingHeaderClient "SELECT 1" OUTPUT_LOCATION
    "qid-0" succeededStatus
    { rows := [{ data := [{ varCharValue := none }] }, sampleRow "v"] } 0
    { data := [{ varCharValue := none }] } [sampleRow "v"]
    { varCharValue := none } rfl (by decide)
    (fun i hi => absurd hi (Nat.not_lt_zero i)) rfl rfl rfl rfl (by decide)
    rfl).1

/-- C10: the remote-service client is initialized at most once: any call to
get_athena_client leaves the global holding exactly the client it returned,
a stored client is returned unchanged with the global untouched, and every
later call returns that same client with the global never replaced. -/
theorem client_initialized_once (s s1 : Option Boto3Client) (c : Boto3Client)
    (h : get_athena_client s = (c, s1)) :
    s1 = some c ∧
    (∀ c0, get_athena_client (some c0) = (c0, some c0)) ∧
    (∀ n, nthClientCall n s1 = (c, s1)) := by
  have hs1 : s1 = some c := by
    cases s with
    | none =>
      have h2 := h
      simp [get_athena_client] at h2
      rw [← h2.1, ← h2.2]
    | some c0 =>
      have h2 := h
      simp [get_athena_client] at h2
      rw [← h2.1, ← h2.2]
  refine ⟨hs1, fun c0 => rfl, ?_⟩
  rw [hs1]
  intro n
  induction n with
  | zero => rfl
  | succ n ih => simpa [nthClientCall, get_athena_client] using ih

/-- C10 witness: after the first call creates the client, three further
calls all return it and leave the stored global unchanged. -/
theorem client_initialized_once_witness :
    nthClientCall 3 (some (boto3_client "athena" "eu-west-1")) =
      (boto3_client "athena" "eu-west-1",
        some (boto3_client "athena" "eu-west-1")) :=
  (client_initialized_once none (some (boto3_client "athena" "eu-west-1"))
    (boto3_client "athena" "eu-west-1") rfl).2.2 3

end AthenaMCP
